import Mathlib

/-!
Verification of the landmark-to-metric geometric analysis engine of the
Face-Rater application. The definitions below are a shallow embedding, over
exact real arithmetic, of the scoring code in the four-metric app variant
(the functions dist, meanPoint, getPts, clamp, scoreFromError, computeMetrics
and weightedScore, together with the landmark-index table LM). JavaScript
number arithmetic is modelled by the real numbers; the idiom x || fallback,
applied in the source to non-negative non-NaN numbers, is modelled by the
function jsOr which substitutes the fallback exactly when x is zero.
-/

namespace FaceRater

/-- A 2D landmark point with real coordinates, as produced by the detector. -/
structure Pt where
  x : ℝ
  y : ℝ

/-- A landmark set: a total assignment of a point to every landmark index.
The spec requires every Registry-referenced index to be present and finite,
which this type models by construction. -/
abbrev Landmarks := ℕ → Pt

namespace LM

/-- Left eye contour landmark indices. -/
def leftEye : List ℕ := [33, 133, 159, 145, 153, 144]

/-- Right eye contour landmark indices. -/
def rightEye : List ℕ := [362, 263, 386, 374, 380, 373]

/-- Left eye inner corner. -/
def leftInner : ℕ := 133

/-- Right eye inner corner. -/
def rightInner : ℕ := 362

/-- Left eye outer corner. -/
def leftOuter : ℕ := 33

/-- Right eye outer corner. -/
def rightOuter : ℕ := 263

/-- Top of the nose bridge. -/
def noseBridgeTop : ℕ := 168

/-- Nose tip. -/
def noseTip : ℕ := 1

/-- Left nostril wing. -/
def noseLeft : ℕ := 97

/-- Right nostril wing. -/
def noseRight : ℕ := 326

/-- Chin. -/
def chin : ℕ := 152

/-- Left face-width boundary point. -/
def faceLeft : ℕ := 234

/-- Right face-width boundary point. -/
def faceRight : ℕ := 454

/-- Left brow midpoint. -/
def browLeftMid : ℕ := 55

/-- Right brow midpoint. -/
def browRightMid : ℕ := 285

end LM

/-- Euclidean distance between two points (the source's dist via Math.hypot). -/
noncomputable def dist (a b : Pt) : ℝ :=
  Real.sqrt ((a.x - b.x) ^ 2 + (a.y - b.y) ^ 2)

/-- The source's meanPoint: componentwise sum via a fold from (0,0), divided by
the list length.  No emptiness check is performed, exactly as in the source. -/
noncomputable def meanPoint (points : List Pt) : Pt :=
  let n := points.length
  let s : Pt := points.foldl (fun acc p => ⟨acc.x + p.x, acc.y + p.y⟩) ⟨0, 0⟩
  ⟨s.x / n, s.y / n⟩

/-- The source's getPts: look each index up in the landmark set. -/
def getPts (lm : Landmarks) (idxs : List ℕ) : List Pt :=
  idxs.map fun i => lm i

/-- The source's clamp(v, a, b) = Math.max(a, Math.min(b, v)). -/
noncomputable def clamp (v a b : ℝ) : ℝ := max a (min b v)

/-- Gaussian error-to-score transform from the source:
clamp(100 * exp(-(err * err) / (2 * tolerance * tolerance)), 0, 100). -/
noncomputable def scoreFromError (err tolerance : ℝ) : ℝ :=
  clamp (100 * Real.exp (-(err * err) / (2 * tolerance * tolerance))) 0 100

/-- Model of the JavaScript idiom x || fallback as the source applies it to
non-NaN numbers: x is falsy exactly when it equals zero. -/
noncomputable def jsOr (x fallback : ℝ) : ℝ := if x = 0 then fallback else x

/-- Reflection of a point about the vertical line at the given x-coordinate,
as computed inline in the symmetry pass of computeMetrics. -/
noncomputable def mirrorAcross (axisX : ℝ) (p : Pt) : Pt :=
  ⟨2 * axisX - p.x, p.y⟩

/-- Raw, unnormalized measurements returned alongside the scores. -/
structure Raw where
  lw : ℝ
  fifths : ℝ
  eyeGapRatio : ℝ
  symmetryNorm : ℝ

/-- The record returned by computeMetrics: four scores plus raw measurements. -/
structure Metrics where
  symmetryScore : ℝ
  goldenScore : ℝ
  fifthsScore : ℝ
  eyeGapScore : ℝ
  raw : Raw

/-- Caller-supplied weight configuration, field per metric as in the app. -/
structure Weights where
  symmetry : ℝ
  golden : ℝ
  fifths : ℝ
  eyeGap : ℝ

/-- Centroid of the left eye contour (local leftEyeCenter in the source). -/
noncomputable def leftEyeCenter (lm : Landmarks) : Pt :=
  meanPoint (getPts lm LM.leftEye)

/-- Centroid of the right eye contour (local rightEyeCenter in the source). -/
noncomputable def rightEyeCenter (lm : Landmarks) : Pt :=
  meanPoint (getPts lm LM.rightEye)

/-- Midpoint of the two eye centroids (local eyeCenterMid in the source). -/
noncomputable def eyeCenterMid (lm : Landmarks) : Pt :=
  ⟨((leftEyeCenter lm).x + (rightEyeCenter lm).x) / 2,
    ((leftEyeCenter lm).y + (rightEyeCenter lm).y) / 2⟩

/-- Distance between the two face-width boundary points (local faceWidth). -/
noncomputable def faceWidth (lm : Landmarks) : ℝ :=
  dist (lm LM.faceLeft) (lm LM.faceRight)

/-- Bridge-to-chin distance scaled by the 1.4 correction (local faceLength). -/
noncomputable def faceLength (lm : Landmarks) : ℝ :=
  dist (lm LM.noseBridgeTop) (lm LM.chin) * 1.4

/-- The x-coordinate of the mirror axis (local midlineX in the source). -/
noncomputable def midlineX (lm : Landmarks) : ℝ := (eyeCenterMid lm).x

/-- The four left/right landmark pairs compared by the symmetry metric
(local pairs in the source). -/
def symPairs : List (ℕ × ℕ) :=
  [(LM.leftOuter, LM.rightOuter), (LM.leftInner, LM.rightInner),
    (LM.browLeftMid, LM.browRightMid), (LM.noseLeft, LM.noseRight)]

/-- Per-pair mirror errors (local symErrs in the source). -/
noncomputable def symErrs (lm : Landmarks) : List ℝ :=
  symPairs.map fun pr => dist (lm pr.1) (mirrorAcross (midlineX lm) (lm pr.2))

/-- Mean mirror error (local symmetryErr in the source). -/
noncomputable def symmetryErr (lm : Landmarks) : ℝ :=
  (symErrs lm).foldl (fun a b => a + b) 0 / (symErrs lm).length

/-- Mirror error normalized by face width (local symmetryNorm). -/
noncomputable def symmetryNorm (lm : Landmarks) : ℝ :=
  symmetryErr lm / jsOr (faceWidth lm) (1e-6)

/-- Symmetry metric score (local symmetryScore in the source). -/
noncomputable def symmetryScore (lm : Landmarks) : ℝ :=
  scoreFromError (symmetryNorm lm) 0.04

/-- Length-to-width ratio (local lw in the source). -/
noncomputable def lw (lm : Landmarks) : ℝ :=
  faceLength lm / jsOr (faceWidth lm) (1e-6)

/-- Relative deviation of lw from the golden target (local goldenErr). -/
noncomputable def goldenErr (lm : Landmarks) : ℝ :=
  |lw lm - 1.618| / 1.618

/-- Golden-ratio metric score (local goldenScore in the source). -/
noncomputable def goldenScore (lm : Landmarks) : ℝ :=
  scoreFromError (goldenErr lm) 0.15

/-- Left eye width as computed by the source: the distance between the points
(leftOuter.x, leftInner.y) and (leftInner.x, leftInner.y). -/
noncomputable def leftEyeW (lm : Landmarks) : ℝ :=
  dist ⟨(lm LM.leftOuter).x, (lm LM.leftInner).y⟩
    ⟨(lm LM.leftInner).x, (lm LM.leftInner).y⟩

/-- Right eye width as computed by the source: the distance between the points
(rightInner.x, rightOuter.y) and (rightOuter.x, rightOuter.y). -/
noncomputable def rightEyeW (lm : Landmarks) : ℝ :=
  dist ⟨(lm LM.rightInner).x, (lm LM.rightOuter).y⟩
    ⟨(lm LM.rightOuter).x, (lm LM.rightOuter).y⟩

/-- Average of the two per-eye widths (local eyeW in the source). -/
noncomputable def eyeW (lm : Landmarks) : ℝ :=
  (leftEyeW lm + rightEyeW lm) / 2

/-- Rule-of-fifths raw ratio (local fifths in the source). -/
noncomputable def fifths (lm : Landmarks) : ℝ :=
  jsOr (faceWidth lm) (1e-6) / jsOr (eyeW lm) (1e-6)

/-- Relative deviation of fifths from 5 (local fifthsErr in the source). -/
noncomputable def fifthsErr (lm : Landmarks) : ℝ :=
  |fifths lm - 5| / 5

/-- Rule-of-fifths metric score (local fifthsScore in the source). -/
noncomputable def fifthsScore (lm : Landmarks) : ℝ :=
  scoreFromError (fifthsErr lm) 0.18

/-- Distance between the two inner eye corners (local innerGap). -/
noncomputable def innerGap (lm : Landmarks) : ℝ :=
  dist (lm LM.leftInner) (lm LM.rightInner)

/-- Inner-corner gap over average eye width (local eyeGapRatio). -/
noncomputable def eyeGapRatio (lm : Landmarks) : ℝ :=
  innerGap lm / jsOr (eyeW lm) (1e-6)

/-- Absolute deviation of eyeGapRatio from 1 (local eyeGapErr). -/
noncomputable def eyeGapErr (lm : Landmarks) : ℝ :=
  |eyeGapRatio lm - 1|

/-- Eye-gap metric score (local eyeGapScore in the source). -/
noncomputable def eyeGapScore (lm : Landmarks) : ℝ :=
  scoreFromError (eyeGapErr lm) 0.25

/-- The source's computeMetrics: the four scores plus raw measurements. -/
noncomputable def computeMetrics (lm : Landmarks) : Metrics :=
  ⟨symmetryScore lm, goldenScore lm, fifthsScore lm, eyeGapScore lm,
    ⟨lw lm, fifths lm, eyeGapRatio lm, symmetryNorm lm⟩⟩

/-- The source's weightedScore: weighted sum of the four scores divided by the
weight sum, with the weight sum replaced by 1 when it is zero (the source's
wSum = Object.values(weights).reduce(...) || 1). -/
noncomputable def weightedScore (m : Metrics) (w : Weights) : ℝ :=
  (m.symmetryScore * w.symmetry + m.goldenScore * w.golden +
      m.fifthsScore * w.fifths + m.eyeGapScore * w.eyeGap) /
    jsOr (w.symmetry + w.golden + w.fifths + w.eyeGap) 1

/-- Following the claim's words, not the source (for comparison in C8): the
horizontal extent of a feature's contour points, i.e. the maximum minus the
minimum of their x-coordinates. -/
noncomputable def specEyeExtentX (lm : Landmarks) (idxs : List ℕ) : ℝ :=
  let xs := idxs.map fun i => (lm i).x
  xs.foldl max (xs.headD 0) - xs.foldl min (xs.headD 0)

/-- Following the claim's words, not the source (for comparison in C8): face
width divided by the average of the two per-eye horizontal contour extents. -/
noncomputable def specFifths (lm : Landmarks) : ℝ :=
  faceWidth lm /
    ((specEyeExtentX lm LM.leftEye + specEyeExtentX lm LM.rightEye) / 2)

/-- A metrics record with all four scores equal to 50 (test input). -/
noncomputable def mAll50 : Metrics := ⟨50, 50, 50, 50, ⟨0, 0, 0, 0⟩⟩

/-- The all-zero weight configuration (test input). -/
noncomputable def wZero : Weights := ⟨0, 0, 0, 0⟩

/-- The app's default weight configuration (test input). -/
noncomputable def wDefault : Weights := ⟨40, 25, 20, 15⟩

/-- The fully degenerate landmark set: every landmark at the origin, so in
particular the face width is zero (test input). -/
noncomputable def lmDeg : Landmarks := fun _ => ⟨0, 0⟩

/-- A perfectly bilaterally symmetric landmark set: both eye contours are
horizontally opposite, so the mirror axis is x = 0, and every compared
left landmark is the exact mirror of its right counterpart (test input). -/
noncomputable def lmSym : Landmarks := fun i =>
  if i = 55 then ⟨-1, 1⟩
  else if i = 285 then ⟨1, 1⟩
  else if i = 97 then ⟨-3, 2⟩
  else if i = 326 then ⟨3, 2⟩
  else if i = 362 ∨ i = 263 ∨ i = 386 ∨ i = 374 ∨ i = 380 ∨ i = 373 then ⟨2, 0⟩
  else if i = 33 ∨ i = 133 ∨ i = 159 ∨ i = 145 ∨ i = 153 ∨ i = 144 then ⟨-2, 0⟩
  else ⟨0, 0⟩

/-- A landmark set whose face length over face width is exactly 1.618: the
face-width boundary points are one unit apart and the bridge-to-chin
distance is 1.618 / 1.4 (test input). -/
noncomputable def lmG : Landmarks := fun i =>
  if i = 454 then ⟨1, 0⟩
  else if i = 152 then ⟨0, 1.618 / 1.4⟩
  else ⟨0, 0⟩

/-- A landmark set whose left eye contour reaches horizontally beyond the eye
corners: the corner-to-corner widths are 2 per eye, but the left contour
extent is 6 because the upper-lid point at index 159 juts out (test input). -/
noncomputable def lmF : Landmarks := fun i =>
  if i = 454 then ⟨10, 0⟩
  else if i = 133 then ⟨2, 0⟩
  else if i = 159 then ⟨-4, 0⟩
  else if i = 263 then ⟨10, 0⟩
  else if i = 362 ∨ i = 386 ∨ i = 374 ∨ i = 380 ∨ i = 373 then ⟨8, 0⟩
  else ⟨0, 0⟩

/-- Distances are never negative. -/
lemma dist_nonneg' (a b : Pt) : 0 ≤ dist a b := Real.sqrt_nonneg _

/-- The distance from a point to itself is zero. -/
lemma dist_self' (a : Pt) : dist a a = 0 := by
  simp [dist]

/-- The distance between two points on a common horizontal line is the
absolute difference of their x-coordinates. -/
lemma dist_horiz (x₁ x₂ y : ℝ) : dist ⟨x₁, y⟩ ⟨x₂, y⟩ = |x₁ - x₂| := by
  simp [dist, Real.sqrt_sq_eq_abs]

/-- The distance between two points on a common vertical line is the
absolute difference of their y-coordinates. -/
lemma dist_vert (x y₁ y₂ : ℝ) : dist ⟨x, y₁⟩ ⟨x, y₂⟩ = |y₁ - y₂| := by
  simp [dist, Real.sqrt_sq_eq_abs]

/-- Clamping to [0,100] lands in [0,100]. -/
lemma clamp_mem (v : ℝ) : 0 ≤ clamp v 0 100 ∧ clamp v 0 100 ≤ 100 :=
  ⟨le_max_left _ _, max_le (by norm_num) (min_le_left _ _)⟩

/-- Every score produced by scoreFromError lies in [0,100]. -/
lemma scoreFromError_mem (e t : ℝ) :
    0 ≤ scoreFromError e t ∧ scoreFromError e t ≤ 100 :=
  clamp_mem _

/-- A zero error scores exactly 100, for every tolerance. -/
lemma scoreFromError_zero (t : ℝ) : scoreFromError 0 t = 100 := by
  simp [scoreFromError, clamp]

/-- For a positive tolerance, scoreFromError is antitone in the absolute
value of the error. -/
lemma scoreFromError_anti (t : ℝ) (ht : 0 < t) {e₁ e₂ : ℝ}
    (h : |e₁| ≤ |e₂|) : scoreFromError e₂ t ≤ scoreFromError e₁ t := by
  have h2 : e₁ * e₁ ≤ e₂ * e₂ := by
    have h3 := mul_self_le_mul_self (abs_nonneg e₁) h
    rwa [abs_mul_abs_self, abs_mul_abs_self] at h3
  have hden : (0 : ℝ) < 2 * t * t := by positivity
  have hexp : Real.exp (-(e₂ * e₂) / (2 * t * t)) ≤
      Real.exp (-(e₁ * e₁) / (2 * t * t)) :=
    Real.exp_le_exp.mpr <| (div_le_div_iff_of_pos_right hden).mpr <| neg_le_neg h2
  have hmul : 100 * Real.exp (-(e₂ * e₂) / (2 * t * t)) ≤
      100 * Real.exp (-(e₁ * e₁) / (2 * t * t)) :=
    mul_le_mul_of_nonneg_left hexp (by norm_num)
  exact max_le_max le_rfl (min_le_min le_rfl hmul)

/-- jsOr returns its first argument whenever that argument is nonzero. -/
lemma jsOr_of_ne {x : ℝ} (fallback : ℝ) (h : x ≠ 0) : jsOr x fallback = x :=
  if_neg h

/-- jsOr of a zero value returns the fallback. -/
lemma jsOr_of_eq {x : ℝ} (fallback : ℝ) (h : x = 0) : jsOr x fallback = fallback :=
  if_pos h

/-- jsOr of a non-negative value with a positive fallback is positive. -/
lemma jsOr_pos {x fallback : ℝ} (hx : 0 ≤ x) (hf : 0 < fallback) :
    0 < jsOr x fallback := by
  unfold jsOr
  split
  · exact hf
  · exact lt_of_le_of_ne hx (Ne.symm (by assumption))

/-- The componentwise fold used by meanPoint accumulates coordinate sums. -/
lemma foldl_addPt (ps : List Pt) (a : Pt) :
    ps.foldl (fun acc p => (⟨acc.x + p.x, acc.y + p.y⟩ : Pt)) a =
      ⟨a.x + (ps.map Pt.x).sum, a.y + (ps.map Pt.y).sum⟩ := by
  induction ps generalizing a with
  | nil => simp
  | cons p ps ih =>
      simp only [List.foldl_cons, List.map_cons, List.sum_cons, ih, Pt.mk.injEq]
      exact ⟨by ring, by ring⟩

/-- meanPoint is the componentwise coordinate sum divided by the length
(on the empty list both coordinates are the indeterminate 0 / 0). -/
lemma meanPoint_eq (ps : List Pt) :
    meanPoint ps =
      ⟨(ps.map Pt.x).sum / ps.length, (ps.map Pt.y).sum / ps.length⟩ := by
  simp [meanPoint, foldl_addPt]

/-- C2 counterexample: aggregation with the all-zero weight configuration does
not fail; the source replaces the zero weight sum by 1 and returns the plain
weighted sum, which is 0 here, so a score is returned. -/
theorem C2_zero_weights_counterexample : weightedScore mAll50 wZero = 0 := by
  simp [weightedScore, mAll50, wZero, jsOr]

/-- C2 amended: when the weight sum is zero, the aggregator substitutes 1 for
the sum and returns the raw weighted sum of the scores instead of failing. -/
theorem C2_zero_weights_amended (m : Metrics) (w : Weights)
    (h : w.symmetry + w.golden + w.fifths + w.eyeGap = 0) :
    weightedScore m w =
      m.symmetryScore * w.symmetry + m.goldenScore * w.golden +
        m.fifthsScore * w.fifths + m.eyeGapScore * w.eyeGap := by
  simp [weightedScore, jsOr_of_eq 1 h]

/-- C2 witness: the amended statement evaluated at the all-50 metrics and the
all-zero weight configuration. -/
theorem C2_zero_weights_amended_witness :
    weightedScore mAll50 wZero =
      mAll50.symmetryScore * wZero.symmetry + mAll50.goldenScore * wZero.golden +
        mAll50.fifthsScore * wZero.fifths + mAll50.eyeGapScore * wZero.eyeGap :=
  C2_zero_weights_amended mAll50 wZero (by norm_num [wZero])

/-- C3 counterexample: meanPoint applied to the empty sequence returns a point
rather than failing; its coordinates are the indeterminate 0 / 0 of the
source's sum-over-length (NaN in JavaScript, 0 under the embedding's division
convention), so no InvalidInputError is raised. -/
theorem C3_centroid_counterexample : meanPoint ([] : List Pt) = ⟨0, 0⟩ := by
  simp [meanPoint]

/-- C3 amended: meanPoint of a non-empty point sequence is the arithmetic mean
of the points; on the empty sequence the source performs no emptiness check
and returns the 0 / 0-indeterminate point instead of failing. -/
theorem C3_centroid_amended (ps : List Pt) (h : ps ≠ []) :
    meanPoint ps =
      ⟨(ps.map Pt.x).sum / ps.length, (ps.map Pt.y).sum / ps.length⟩ :=
  meanPoint_eq ps

/-- C3 witness: the amended statement evaluated on a concrete two-point list,
whose mean is (2, 3). -/
theorem C3_centroid_amended_witness :
    meanPoint [(⟨1, 2⟩ : Pt), ⟨3, 4⟩] = ⟨2, 3⟩ := by
  rw [C3_centroid_amended [(⟨1, 2⟩ : Pt), ⟨3, 4⟩] (by simp)]
  norm_num

/-- C4: for every strictly positive tolerance, a zero error scores exactly
100, the score is monotonically non-increasing in the absolute error, and the
score is the clamped Gaussian 100 * exp(-error^2 / (2 * tolerance^2)). -/
theorem C4_scoreFromError_props (t : ℝ) (ht : 0 < t) :
    scoreFromError 0 t = 100 ∧
    (∀ e₁ e₂ : ℝ, |e₁| ≤ |e₂| → scoreFromError e₂ t ≤ scoreFromError e₁ t) ∧
    ∀ e : ℝ, scoreFromError e t =
      clamp (100 * Real.exp (-e ^ 2 / (2 * t ^ 2))) 0 100 := by
  refine ⟨scoreFromError_zero t, fun e₁ e₂ h => scoreFromError_anti t ht h,
    fun e => ?_⟩
  have h2 : -(e * e) / (2 * t * t) = -e ^ 2 / (2 * t ^ 2) := by ring
  rw [scoreFromError, h2]

/-- C4 witness: binder-free consequences at tolerance 1: zero error scores
100, and the score at error 2 is at most the score at error 1. -/
theorem C4_scoreFromError_props_witness :
    scoreFromError 0 1 = 100 ∧ scoreFromError 2 1 ≤ scoreFromError 1 1 := by
  have h := C4_scoreFromError_props 1 one_pos
  exact ⟨h.1, h.2.1 1 2 (by norm_num)⟩

/-- C5: with a positive weight sum, the aggregate is the weighted sum of the
four scores over the weight sum; with all four weights equal and positive it
is the unweighted arithmetic mean of the four scores. -/
theorem C5_weighted_average (m : Metrics) (w : Weights)
    (hsum : 0 < w.symmetry + w.golden + w.fifths + w.eyeGap)
    (c : ℝ) (hc : 0 < c) :
    weightedScore m w =
      (m.symmetryScore * w.symmetry + m.goldenScore * w.golden +
          m.fifthsScore * w.fifths + m.eyeGapScore * w.eyeGap) /
        (w.symmetry + w.golden + w.fifths + w.eyeGap) ∧
    weightedScore m ⟨c, c, c, c⟩ =
      (m.symmetryScore + m.goldenScore + m.fifthsScore + m.eyeGapScore) / 4 := by
  constructor
  · rw [weightedScore, jsOr_of_ne 1 (ne_of_gt hsum)]
  · have hc4 : c + c + c + c ≠ 0 := by positivity
    rw [weightedScore, jsOr_of_ne 1 hc4]
    field_simp
    ring

/-- C5 witness: instantiated at the all-50 metrics, the app's default weights
(sum 100), and the equal weight 1: the aggregate is 50 both ways. -/
theorem C5_weighted_average_witness :
    weightedScore mAll50 wDefault =
      (mAll50.symmetryScore * wDefault.symmetry +
          mAll50.goldenScore * wDefault.golden +
          mAll50.fifthsScore * wDefault.fifths +
          mAll50.eyeGapScore * wDefault.eyeGap) /
        (wDefault.symmetry + wDefault.golden + wDefault.fifths +
          wDefault.eyeGap) ∧
    weightedScore mAll50 ⟨1, 1, 1, 1⟩ =
      (mAll50.symmetryScore + mAll50.goldenScore + mAll50.fifthsScore +
        mAll50.eyeGapScore) / 4 :=
  C5_weighted_average mAll50 wDefault (by norm_num [wDefault]) 1 one_pos

/-- The aggregate of four scores in [0,100] under non-negative weights with a
positive sum lies in [0,100]. -/
lemma weightedScore_mem (m : Metrics) (w : Weights)
    (hs₁ : 0 ≤ m.symmetryScore) (hs₂ : m.symmetryScore ≤ 100)
    (hg₁ : 0 ≤ m.goldenScore) (hg₂ : m.goldenScore ≤ 100)
    (hf₁ : 0 ≤ m.fifthsScore) (hf₂ : m.fifthsScore ≤ 100)
    (he₁ : 0 ≤ m.eyeGapScore) (he₂ : m.eyeGapScore ≤ 100)
    (hw₁ : 0 ≤ w.symmetry) (hw₂ : 0 ≤ w.golden)
    (hw₃ : 0 ≤ w.fifths) (hw₄ : 0 ≤ w.eyeGap)
    (hsum : 0 < w.symmetry + w.golden + w.fifths + w.eyeGap) :
    0 ≤ weightedScore m w ∧ weightedScore m w ≤ 100 := by
  rw [weightedScore, jsOr_of_ne 1 (ne_of_gt hsum)]
  constructor
  · apply div_nonneg _ hsum.le
    have p₁ := mul_nonneg hs₁ hw₁
    have p₂ := mul_nonneg hg₁ hw₂
    have p₃ := mul_nonneg hf₁ hw₃
    have p₄ := mul_nonneg he₁ hw₄
    linarith
  · rw [div_le_iff hsum]
    have q₁ := mul_le_mul_of_nonneg_right hs₂ hw₁
    have q₂ := mul_le_mul_of_nonneg_right hg₂ hw₂
    have q₃ := mul_le_mul_of_nonneg_right hf₂ hw₃
    have q₄ := mul_le_mul_of_nonneg_right he₂ hw₄
    linarith

/-- C1: for every landmark set (Registry indices present and finite by the
type of Landmarks) and every weight configuration with non-negative weights
and a positive weight sum, the four metric scores of computeMetrics and the
overall weightedScore all lie in [0,100]. -/
theorem C1_scores_bounded (lm : Landmarks) (w : Weights)
    (hw₁ : 0 ≤ w.symmetry) (hw₂ : 0 ≤ w.golden)
    (hw₃ : 0 ≤ w.fifths) (hw₄ : 0 ≤ w.eyeGap)
    (hsum : 0 < w.symmetry + w.golden + w.fifths + w.eyeGap) :
    (0 ≤ (computeMetrics lm).symmetryScore ∧
      (computeMetrics lm).symmetryScore ≤ 100) ∧
    (0 ≤ (computeMetrics lm).goldenScore ∧
      (computeMetrics lm).goldenScore ≤ 100) ∧
    (0 ≤ (computeMetrics lm).fifthsScore ∧
      (computeMetrics lm).fifthsScore ≤ 100) ∧
    (0 ≤ (computeMetrics lm).eyeGapScore ∧
      (computeMetrics lm).eyeGapScore ≤ 100) ∧
    (0 ≤ weightedScore (computeMetrics lm) w ∧
      weightedScore (computeMetrics lm) w ≤ 100) := by
  have hs := scoreFromError_mem (symmetryNorm lm) 0.04
  have hg := scoreFromError_mem (goldenErr lm) 0.15
  have hf := scoreFromError_mem (fifthsErr lm) 0.18
  have he := scoreFromError_mem (eyeGapErr lm) 0.25
  exact ⟨hs, hg, hf, he,
    weightedScore_mem (computeMetrics lm) w hs.1 hs.2 hg.1 hg.2 hf.1 hf.2
      he.1 he.2 hw₁ hw₂ hw₃ hw₄ hsum⟩

/-- C1 witness: the overall-score bounds at the degenerate landmark set and
the app's default weight configuration. -/
theorem C1_scores_bounded_witness :
    0 ≤ weightedScore (computeMetrics lmDeg) wDefault ∧
      weightedScore (computeMetrics lmDeg) wDefault ≤ 100 :=
  (C1_scores_bounded lmDeg wDefault (by norm_num [wDefault])
    (by norm_num [wDefault]) (by norm_num [wDefault]) (by norm_num [wDefault])
    (by norm_num [wDefault])).2.2.2.2

/-- C9: for every landmark set, both denominators actually used by
computeMetrics are the jsOr-substituted values and are strictly positive
(when the face width is zero the small positive epsilon 1e-6 is substituted),
so no division by zero occurs and every returned score is a defined finite
value in [0,100]. -/
theorem C9_degenerate_no_nan (lm : Landmarks) :
    (faceWidth lm = 0 → jsOr (faceWidth lm) (1e-6) = 1e-6) ∧
    0 < jsOr (faceWidth lm) (1e-6) ∧
    0 < jsOr (eyeW lm) (1e-6) ∧
    (0 ≤ (computeMetrics lm).symmetryScore ∧
      (computeMetrics lm).symmetryScore ≤ 100) ∧
    (0 ≤ (computeMetrics lm).goldenScore ∧
      (computeMetrics lm).goldenScore ≤ 100) ∧
    (0 ≤ (computeMetrics lm).fifthsScore ∧
      (computeMetrics lm).fifthsScore ≤ 100) ∧
    (0 ≤ (computeMetrics lm).eyeGapScore ∧
      (computeMetrics lm).eyeGapScore ≤ 100) := by
  have heps : (0 : ℝ) < 1e-6 := by norm_num
  have heyeW : 0 ≤ eyeW lm :=
    div_nonneg (add_nonneg (dist_nonneg' _ _) (dist_nonneg' _ _)) (by norm_num)
  exact ⟨fun h0 => jsOr_of_eq _ h0,
    jsOr_pos (dist_nonneg' _ _) heps,
    jsOr_pos heyeW heps,
    scoreFromError_mem (symmetryNorm lm) 0.04,
    scoreFromError_mem (goldenErr lm) 0.15,
    scoreFromError_mem (fifthsErr lm) 0.18,
    scoreFromError_mem (eyeGapErr lm) 0.25⟩

/-- C9 witness: at the fully degenerate landmark set the face width is zero,
the epsilon is substituted, and the golden score is still a defined value in
[0,100]. -/
theorem C9_degenerate_no_nan_witness :
    jsOr (faceWidth lmDeg) (1e-6) = 1e-6 ∧
      0 ≤ (computeMetrics lmDeg).goldenScore ∧
      (computeMetrics lmDeg).goldenScore ≤ 100 := by
  have h := C9_degenerate_no_nan lmDeg
  have h0 : faceWidth lmDeg = 0 := by
    simp [faceWidth, lmDeg, dist]
  exact ⟨h.1 h0, h.2.2.2.2.1.1, h.2.2.2.2.1.2⟩

/-- C6: if every compared left feature point is the exact vertical mirror of
its right counterpart about the axis through the midpoint of the two eye
centroids, the symmetry metric score is exactly 100. -/
theorem C6_perfect_symmetry (lm : Landmarks)
    (h : ∀ pr ∈ symPairs, lm pr.1 = mirrorAcross (midlineX lm) (lm pr.2)) :
    (computeMetrics lm).symmetryScore = 100 := by
  have h1 := h (LM.leftOuter, LM.rightOuter) (by simp [symPairs])
  have h2 := h (LM.leftInner, LM.rightInner) (by simp [symPairs])
  have h3 := h (LM.browLeftMid, LM.browRightMid) (by simp [symPairs])
  have h4 := h (LM.noseLeft, LM.noseRight) (by simp [symPairs])
  have herrs : symErrs lm = [0, 0, 0, 0] := by
    simp only [symErrs, symPairs, List.map_cons, List.map_nil]
    rw [← h1, ← h2, ← h3, ← h4]
    simp [dist_self']
  have herr : symmetryErr lm = 0 := by
    simp [symmetryErr, herrs]
  have hnorm : symmetryNorm lm = 0 := by
    simp [symmetryNorm, herr]
  show symmetryScore lm = 100
  rw [symmetryScore, hnorm, scoreFromError_zero]

/-- Mirror-axis location for the symmetric test landmark set: both eye
centroids sit at x = -2 and x = 2, so the midline is x = 0. -/
lemma lmSym_midlineX : midlineX lmSym = 0 := by
  have e33 : lmSym 33 = ⟨-2, 0⟩ := by norm_num [lmSym]
  have e133 : lmSym 133 = ⟨-2, 0⟩ := by norm_num [lmSym]
  have e159 : lmSym 159 = ⟨-2, 0⟩ := by norm_num [lmSym]
  have e145 : lmSym 145 = ⟨-2, 0⟩ := by norm_num [lmSym]
  have e153 : lmSym 153 = ⟨-2, 0⟩ := by norm_num [lmSym]
  have e144 : lmSym 144 = ⟨-2, 0⟩ := by norm_num [lmSym]
  have f362 : lmSym 362 = ⟨2, 0⟩ := by norm_num [lmSym]
  have f263 : lmSym 263 = ⟨2, 0⟩ := by norm_num [lmSym]
  have f386 : lmSym 386 = ⟨2, 0⟩ := by norm_num [lmSym]
  have f374 : lmSym 374 = ⟨2, 0⟩ := by norm_num [lmSym]
  have f380 : lmSym 380 = ⟨2, 0⟩ := by norm_num [lmSym]
  have f373 : lmSym 373 = ⟨2, 0⟩ := by norm_num [lmSym]
  have hl : leftEyeCenter lmSym = ⟨-2, 0⟩ := by
    rw [leftEyeCenter, getPts, LM.leftEye]
    simp only [List.map_cons, List.map_nil, e33, e133, e159, e145, e153, e144,
      meanPoint_eq]
    norm_num
  have hr : rightEyeCenter lmSym = ⟨2, 0⟩ := by
    rw [rightEyeCenter, getPts, LM.rightEye]
    simp only [List.map_cons, List.map_nil, f362, f263, f386, f374, f380, f373,
      meanPoint_eq]
    norm_num
  rw [midlineX, eyeCenterMid, hl, hr]
  norm_num

/-- C6 witness: the symmetric test landmark set scores exactly 100 on the
symmetry metric. -/
theorem C6_perfect_symmetry_witness :
    (computeMetrics lmSym).symmetryScore = 100 := by
  apply C6_perfect_symmetry
  intro pr hpr
  have hmid := lmSym_midlineX
  simp only [symPairs, List.mem_cons, List.not_mem_nil, or_false] at hpr
  rcases hpr with h | h | h | h <;> subst h <;>
    simp only [mirrorAcross, hmid, LM.leftOuter, LM.rightOuter, LM.leftInner,
      LM.rightInner, LM.browLeftMid, LM.browRightMid, LM.noseLeft,
      LM.noseRight] <;>
    norm_num [lmSym]

/-- C7: if the face length over the face width equals 1.618 exactly, the
golden-ratio metric score is exactly 100. -/
theorem C7_golden_ratio (lm : Landmarks)
    (h : faceLength lm / faceWidth lm = 1.618) :
    (computeMetrics lm).goldenScore = 100 := by
  have hfw : faceWidth lm ≠ 0 := by
    intro h0
    rw [h0, div_zero] at h
    norm_num at h
  have hlw : lw lm = 1.618 := by
    rw [lw, jsOr_of_ne _ hfw, h]
  have herr : goldenErr lm = 0 := by
    rw [goldenErr, hlw]
    norm_num
  show goldenScore lm = 100
  rw [goldenScore, herr, scoreFromError_zero]

/-- C7 witness: the golden-ratio test landmark set has face width 1 and
bridge-to-chin distance 1.618 / 1.4, hence length-over-width exactly 1.618
and a golden score of 100. -/
theorem C7_golden_ratio_witness :
    (computeMetrics lmG).goldenScore = 100 := by
  apply C7_golden_ratio
  have h234 : lmG 234 = ⟨0, 0⟩ := by norm_num [lmG]
  have h454 : lmG 454 = ⟨1, 0⟩ := by norm_num [lmG]
  have h168 : lmG 168 = ⟨0, 0⟩ := by norm_num [lmG]
  have h152 : lmG 152 = ⟨0, 1.618 / 1.4⟩ := by norm_num [lmG]
  have hfw : faceWidth lmG = 1 := by
    rw [faceWidth, LM.faceLeft, LM.faceRight, h234, h454, dist_horiz]
    norm_num
  have hfl : faceLength lmG = 1.618 := by
    rw [faceLength, LM.noseBridgeTop, LM.chin, h168, h152, dist_vert]
    rw [abs_of_nonpos (by norm_num)]
    norm_num
  rw [hfw, hfl]
  norm_num

/-- C8 counterexample: on the test landmark set whose left upper-lid contour
point protrudes horizontally past the eye corners, the source's raw fifths
ratio is 5 (it measures eye width corner-to-corner only), while the claim's
reading — face width over the average horizontal extent of the full eye
contours — gives 5 / 2, so the two disagree. -/
theorem C8_fifths_counterexample :
    (computeMetrics lmF).raw.fifths = 5 ∧ specFifths lmF = 5 / 2 ∧
      (computeMetrics lmF).raw.fifths ≠ specFifths lmF := by
  have h33 : lmF 33 = ⟨0, 0⟩ := by norm_num [lmF]
  have h133 : lmF 133 = ⟨2, 0⟩ := by norm_num [lmF]
  have h159 : lmF 159 = ⟨-4, 0⟩ := by norm_num [lmF]
  have h145 : lmF 145 = ⟨0, 0⟩ := by norm_num [lmF]
  have h153 : lmF 153 = ⟨0, 0⟩ := by norm_num [lmF]
  have h144 : lmF 144 = ⟨0, 0⟩ := by norm_num [lmF]
  have h362 : lmF 362 = ⟨8, 0⟩ := by norm_num [lmF]
  have h263 : lmF 263 = ⟨10, 0⟩ := by norm_num [lmF]
  have h386 : lmF 386 = ⟨8, 0⟩ := by norm_num [lmF]
  have h374 : lmF 374 = ⟨8, 0⟩ := by norm_num [lmF]
  have h380 : lmF 380 = ⟨8, 0⟩ := by norm_num [lmF]
  have h373 : lmF 373 = ⟨8, 0⟩ := by norm_num [lmF]
  have h234 : lmF 234 = ⟨0, 0⟩ := by norm_num [lmF]
  have h454 : lmF 454 = ⟨10, 0⟩ := by norm_num [lmF]
  have hfw : faceWidth lmF = 10 := by
    rw [faceWidth, LM.faceLeft, LM.faceRight, h234, h454, dist_horiz]
    norm_num
  have hlw : leftEyeW lmF = 2 := by
    rw [leftEyeW, LM.leftOuter, LM.leftInner, h33, h133]
    rw [dist_horiz]
    norm_num
  have hrw : rightEyeW lmF = 2 := by
    rw [rightEyeW, LM.rightInner, LM.rightOuter, h362, h263]
    rw [dist_horiz]
    norm_num
  have hew : eyeW lmF = 2 := by
    rw [eyeW, hlw, hrw]
    norm_num
  have hcode : fifths lmF = 5 := by
    rw [fifths, hfw, hew, jsOr_of_ne _ (by norm_num), jsOr_of_ne _ (by norm_num)]
    norm_num
  have hextL : specEyeExtentX lmF LM.leftEye = 6 := by
    rw [specEyeExtentX, LM.leftEye]
    simp only [List.map_cons, List.map_nil, h33, h133, h159, h145, h153, h144,
      List.headD, List.foldl]
    norm_num [max_def, min_def]
  have hextR : specEyeExtentX lmF LM.rightEye = 2 := by
    rw [specEyeExtentX, LM.rightEye]
    simp only [List.map_cons, List.map_nil, h362, h263, h386, h374, h380, h373,
      List.headD, List.foldl]
    norm_num [max_def, min_def]
  have hspec : specFifths lmF = 5 / 2 := by
    rw [specFifths, hfw, hextL, hextR]
    norm_num
  refine ⟨hcode, hspec, ?_⟩
  rw [show (computeMetrics lmF).raw.fifths = fifths lmF from rfl, hcode, hspec]
  norm_num

/-- C8 amended: the rule-of-fifths raw measurement is the (epsilon-guarded)
face width divided by the (epsilon-guarded) average of the two per-eye
corner-to-corner horizontal widths — the absolute x-difference between each
eye's outer and inner corner landmarks, not the horizontal extent of the full
eye contour — and the score is scoreFromError of the relative deviation of
that ratio from 5 with tolerance 0.18. -/
theorem C8_fifths_amended (lm : Landmarks) :
    (computeMetrics lm).raw.fifths =
      jsOr (faceWidth lm) (1e-6) /
        jsOr ((|(lm LM.leftOuter).x - (lm LM.leftInner).x| +
            |(lm LM.rightInner).x - (lm LM.rightOuter).x|) / 2) (1e-6) ∧
    (computeMetrics lm).fifthsScore =
      scoreFromError (|(computeMetrics lm).raw.fifths - 5| / 5) 0.18 := by
  have hle : leftEyeW lm = |(lm LM.leftOuter).x - (lm LM.leftInner).x| :=
    dist_horiz _ _ _
  have hre : rightEyeW lm = |(lm LM.rightInner).x - (lm LM.rightOuter).x| :=
    dist_horiz _ _ _
  constructor
  · show fifths lm = _
    rw [fifths, eyeW, hle, hre]
  · show fifthsScore lm = scoreFromError (|fifths lm - 5| / 5) 0.18
    rfl

end FaceRater
